import Mathlib

/-!
Verification of the stork-operator reconciliation core (src/charm.py,
src/stork.py): the connection resolver `_connection_string`, the status
collection handler `_on_collect_unit_status`, and the event handlers
`_on_config_changed`, `_on_database_created`,
`_on_database_endpoints_changed`, `_on_relation_broken`.

The Python is shallowly embedded: one relation-data entry becomes a record
of the four optional string fields the code consults via `.get`; a
reconciliation pass's ambient inputs (workload version, running flag,
status detail, relation presence, fetched snapshot) become a `CharmState`;
exceptions the Python can raise (`StopIteration` from `next` on an empty
generator, `ValueError` from two-variable unpacking of `split`,
`TypeError` from subscripting `None`) become explicit error constructors.
-/

/-- Exceptions the embedded Python code can raise. -/
inductive PyError
  | stopIteration
  | valueError
  | typeError
deriving DecidableEq

/-- One relation instance's data mapping, restricted to the four keys
`_connection_string` reads via `data.get(...)`; an absent key is `none`. -/
structure RelationData where
  username : Option String
  password : Option String
  endpoints : Option String
  database : Option String
deriving DecidableEq

/-- The dict returned by `_connection_string` on success.  `database` may be
absent in the relation data, in which case the dict stores Python `None`
under `dbname`, hence `Option String` there. -/
structure ConnectionDescriptor where
  dbname : Option String
  dbuser : String
  dbhost : String
  dbpass : String
  dbport : String
  dbopts : String
deriving DecidableEq

/-- Outcome of evaluating the `_connection_string` property: Python `None`,
a connection dict, or a raised exception. -/
inductive ResolveResult
  | resolvedNone
  | descriptor (d : ConnectionDescriptor)
  | raised (e : PyError)
deriving DecidableEq

/-- The hard-coded `dbopts` value in `_connection_string`. -/
def dbopts_const : String :=
  "connect_timeout=5 keepalives=1 keepalives_idle=30 keepalives_count=1 tcp_user_timeout=30"

/-- Accumulator-based core of `pySplit`, walking the character list. -/
def pySplitAux (sep : Char) : List Char → List Char → List String
  | acc, [] => [String.mk acc.reverse]
  | acc, c :: cs =>
      if c = sep then String.mk acc.reverse :: pySplitAux sep [] cs
      else pySplitAux sep (c :: acc) cs

/-- Python's `str.split(sep)` for a one-character separator: never drops
empty pieces, and `"".split(sep) == ['']`. -/
def pySplit (sep : Char) (s : String) : List String :=
  pySplitAux sep [] s.data

/-- Embedding of the `_connection_string` property (src/charm.py).
`relationPresent` models `self.model.relations.get("database")` being
non-empty; `snapshot` models `list(self.database.fetch_relation_data().values())`.
When the snapshot is empty the Python falls into
`next(data for data in self.database.fetch_relation_data().values())`,
which raises `StopIteration`; the two-variable unpacking
`host, port = endpoints.split(":")` raises `ValueError` unless the split
yields exactly two pieces. -/
def connectionString (relationPresent : Bool) (snapshot : List RelationData) :
    ResolveResult :=
  if !relationPresent then .resolvedNone
  else
    match snapshot with
    | [] => .raised .stopIteration
    | data :: _ =>
      match data.username, data.password, data.endpoints with
      | some username, some password, some endpoints =>
          match pySplit ':' endpoints with
          | [host, port] =>
              if host = "" ∨ host = "None" then .resolvedNone
              else .descriptor {
                dbname := data.database
                dbuser := username
                dbhost := host
                dbpass := password
                dbport := port
                dbopts := dbopts_const }
          | _ => .raised .valueError
      | _, _, _ => .resolvedNone

/-- Ambient inputs of one reconciliation pass: results of the
`stork` collaborator calls and the relation state the charm reads. -/
structure CharmState where
  storkVersion : Option String
  running : Bool
  storkStatus : String
  relationPresent : Bool
  snapshot : List RelationData
deriving DecidableEq

/-- Side-effecting requests a handler issues to its collaborators. -/
inductive Effect
  | setWorkloadVersion (v : String)
  | deferEvent
  | dbInit (d : ConnectionDescriptor)
  | renderAndReload (d : ConnectionDescriptor)
deriving DecidableEq

/-- What one handler invocation did: the effects issued in order, and the
exception that aborted the handler, if any. -/
structure HandlerResult where
  effects : List Effect
  raised : Option PyError
deriving DecidableEq

/-- Embedding of `StorkCharm._on_config_changed`: set the workload version
when `stork.get_version()` is not `None`; defer when the connection string
is `None`; otherwise render and reload. -/
def onConfigChanged (st : CharmState) : HandlerResult :=
  let versionEffects : List Effect :=
    match st.storkVersion with
    | some v => [.setWorkloadVersion v]
    | none => []
  match connectionString st.relationPresent st.snapshot with
  | .raised e => ⟨versionEffects, some e⟩
  | .resolvedNone => ⟨versionEffects ++ [.deferEvent], none⟩
  | .descriptor d => ⟨versionEffects ++ [.renderAndReload d], none⟩

/-- Embedding of `StorkCharm._on_database_created`: calls
`stork.db_init(self._connection_string)` and then
`stork.render_and_reload(self._connection_string)` with no `None` check.
When the resolver yields `None`, `stork.db_init` (src/stork.py) evaluates
`dbconn["dbhost"]` on `None`, raising `TypeError` before any command runs. -/
def onDatabaseCreated (st : CharmState) : HandlerResult :=
  match connectionString st.relationPresent st.snapshot with
  | .raised e => ⟨[], some e⟩
  | .resolvedNone => ⟨[], some .typeError⟩
  | .descriptor d => ⟨[.dbInit d, .renderAndReload d], none⟩

/-- Embedding of `StorkCharm._on_relation_broken`: the handler body is a
bare `return` (the status-setting code is commented out). -/
def onRelationBroken (_st : CharmState) : HandlerResult :=
  ⟨[], none⟩

/-- Embedding of `StorkCharm._on_database_endpoints_changed`: when the
connection string is `None` it logs and returns (no defer); otherwise it
renders and reloads. -/
def onDatabaseEndpointsChanged (st : CharmState) : HandlerResult :=
  match connectionString st.relationPresent st.snapshot with
  | .raised e => ⟨[], some e⟩
  | .resolvedNone => ⟨[], none⟩
  | .descriptor d => ⟨[.renderAndReload d], none⟩

/-- Status values the charm adds via `event.add_status`. -/
inductive UnitStatus
  | blocked (msg : String)
  | active (msg : String)
deriving DecidableEq

/-- Outcome of `_on_collect_unit_status`: either the handler raised (a
propagated resolver exception) or it added this list of statuses in order. -/
inductive StatusOutcome
  | raised (e : PyError)
  | statuses (l : List UnitStatus)
deriving DecidableEq

/-- Embedding of `StorkCharm._on_collect_unit_status`.  Note that in the
running check the code adds `BlockedStatus` and then still falls through to
`add_status(ActiveStatus(...))`. -/
def collectUnitStatus (st : CharmState) : StatusOutcome :=
  match st.storkVersion with
  | none => .statuses [.blocked "isc-stork-server is not installed"]
  | some _ =>
    match connectionString st.relationPresent st.snapshot with
    | .raised e => .raised e
    | .resolvedNone =>
        if !st.relationPresent then .statuses [.blocked "database relation missing"]
        else .statuses [.blocked "database relation incomplete, check the logs"]
    | .descriptor _ =>
        if !st.running then
          .statuses [.blocked "isc-stork-server is not running", .active st.storkStatus]
        else .statuses [.active st.storkStatus]

/-- True for statuses of the `blocked` kind. -/
def UnitStatus.isBlocked : UnitStatus → Bool
  | .blocked _ => true
  | .active _ => false

/-- Modelled from the spec: the published status of a pass.  The ops
collect-status aggregation (the hosting runtime, not part of src/) surfaces
a single tagged value {Blocked(reason) | Active(detail)} after every pass,
and a Blocked reason outranks Active detail, mirroring the spec's priority
chain in which every blocking condition preempts the Active report. -/
def publishedStatus : StatusOutcome → Option UnitStatus
  | .raised _ => none
  | .statuses l =>
      match l.find? UnitStatus.isBlocked with
      | some b => some b
      | none => l.head?

/-- The inputs `_connection_string` actually consults: whether the snapshot
has a first entry, and that entry's four fields. -/
def consulted : List RelationData → Option (Option String × Option String × Option String × Option String)
  | [] => none
  | d :: _ => some (d.username, d.password, d.endpoints, d.database)

/-- A complete relation-data entry, as in spec Scenario C. -/
def goodData : RelationData :=
  { username := some "u", password := some "p",
    endpoints := some "10.0.0.1:5432", database := some "db" }

/-- A relation-data entry with the required `password` field absent. -/
def incompleteData : RelationData :=
  { username := some "u", password := none,
    endpoints := some "10.0.0.1:5432", database := none }

/-- A pass state where the relation is present but its data is incomplete. -/
def stIncomplete : CharmState :=
  { storkVersion := some "1.0.0", running := true,
    storkStatus := "This is the default normal status",
    relationPresent := true, snapshot := [incompleteData] }

example : pySplit ':' "" = [""] := by decide
example : pySplit ':' "10.0.0.1:5432" = ["10.0.0.1", "5432"] := by decide
example : pySplit ':' "h:1:2" = ["h", "1", "2"] := by decide
example : connectionString true [goodData] =
    .descriptor ⟨some "db", "u", "10.0.0.1", "p", "5432", dbopts_const⟩ := by decide
example : connectionString true [incompleteData] = .resolvedNone := by decide
example : connectionString true [] = .raised .stopIteration := by decide
example : connectionString false [goodData] = .resolvedNone := by decide

/-- A relation-data entry whose endpoints host part is the placeholder
string `"None"`, as in spec Scenario D. -/
def noneHostData : RelationData :=
  { username := some "u", password := some "p",
    endpoints := some "None:5432", database := some "db" }

/-- A complete entry except that the optional `database` field is absent. -/
def noDbData : RelationData :=
  { username := some "u", password := some "p",
    endpoints := some "10.0.0.1:5432", database := none }

/-- A complete entry whose endpoints string has two colons. -/
def badEndpointsData : RelationData :=
  { username := some "u", password := some "p",
    endpoints := some "h:1:2", database := none }

/-- An entry whose username is present but the empty string. -/
def emptyUserData : RelationData :=
  { username := some "", password := some "p",
    endpoints := some "h:1", database := none }

/-- An entry whose endpoints value is present but the empty string. -/
def emptyEndpointsData : RelationData :=
  { username := some "u", password := some "p",
    endpoints := some "", database := none }

/-- If any required field of the first entry is absent, the resolver
returns `None` (for any relation presence). -/
lemma connectionString_missing_field (p : Bool) (d : RelationData)
    (rest : List RelationData)
    (h : d.username = none ∨ d.password = none ∨ d.endpoints = none) :
    connectionString p (d :: rest) = .resolvedNone := by
  cases p with
  | false => rfl
  | true =>
    cases hu : d.username <;> cases hp : d.password <;> cases he : d.endpoints <;>
      simp_all [connectionString]

/-- If the endpoints of the first entry split into `[host, port]` with an
empty or `"None"` host, the resolver returns `None`. -/
lemma connectionString_bad_host (p : Bool) (d : RelationData)
    (rest : List RelationData) (e host port : String)
    (he : d.endpoints = some e) (hs : pySplit ':' e = [host, port])
    (hh : host = "" ∨ host = "None") :
    connectionString p (d :: rest) = .resolvedNone := by
  cases p with
  | false => rfl
  | true =>
    cases hu : d.username <;> cases hp : d.password <;>
      simp_all [connectionString]

/-- The success equation of the resolver: relation present, all required
fields present, endpoints splitting into a valid `[host, port]`. -/
lemma connectionString_success (d : RelationData) (rest : List RelationData)
    (u pw e host port : String)
    (hu : d.username = some u) (hp : d.password = some pw)
    (he : d.endpoints = some e) (hs : pySplit ':' e = [host, port])
    (h1 : host ≠ "") (h2 : host ≠ "None") :
    connectionString true (d :: rest) =
      .descriptor ⟨d.database, u, host, pw, port, dbopts_const⟩ := by
  simp [connectionString, hu, hp, he, hs, h1, h2]

/-- When the endpoints string does not split into exactly two pieces, the
two-variable unpacking raises `ValueError`. -/
lemma connectionString_bad_split (d : RelationData) (rest : List RelationData)
    (u pw e : String)
    (hu : d.username = some u) (hp : d.password = some pw)
    (he : d.endpoints = some e) (hl : (pySplit ':' e).length ≠ 2) :
    connectionString true (d :: rest) = .raised .valueError := by
  cases hsp : pySplit ':' e with
  | nil => simp [connectionString, hu, hp, he, hsp]
  | cons a t =>
    cases t with
    | nil => simp [connectionString, hu, hp, he, hsp]
    | cons b t2 =>
      cases t2 with
      | nil => exact absurd (by rw [hsp]; rfl) hl
      | cons c t3 => simp [connectionString, hu, hp, he, hsp]

/-- Claim C4: the resolver returns `None` whenever a required field
(username, password, endpoints) is absent from the consulted entry, and
whenever the endpoints split into a `[host, port]` pair whose host is
empty or the literal string `"None"`; absence of the optional `database`
field alone does not cause `None` (the descriptor is still produced, with
`dbname` absent). -/
theorem c4_resolver_none_conditions (p : Bool) (d : RelationData)
    (rest : List RelationData) :
    ((d.username = none ∨ d.password = none ∨ d.endpoints = none) →
      connectionString p (d :: rest) = .resolvedNone)
    ∧ (∀ e host port, d.endpoints = some e → pySplit ':' e = [host, port] →
        (host = "" ∨ host = "None") →
        connectionString p (d :: rest) = .resolvedNone)
    ∧ (∀ u pw e host port, d.database = none → d.username = some u →
        d.password = some pw → d.endpoints = some e →
        pySplit ':' e = [host, port] → host ≠ "" → host ≠ "None" → p = true →
        connectionString p (d :: rest) =
          .descriptor ⟨none, u, host, pw, port, dbopts_const⟩) := by
  refine ⟨fun h => connectionString_missing_field p d rest h,
    fun e host port he hs hh => connectionString_bad_host p d rest e host port he hs hh,
    fun u pw e host port hdb hu hp he hs h1 h2 hptrue => ?_⟩
  subst hptrue
  rw [connectionString_success d rest u pw e host port hu hp he hs h1 h2, hdb]

/-- Witness for C4 at concrete inputs: a missing password, a `"None"`
host, and an entry lacking only the optional database field. -/
theorem c4_witness :
    connectionString true [incompleteData] = .resolvedNone
    ∧ connectionString true [noneHostData] = .resolvedNone
    ∧ connectionString true [noDbData] =
        .descriptor ⟨none, "u", "10.0.0.1", "p", "5432", dbopts_const⟩ :=
  ⟨(c4_resolver_none_conditions true incompleteData []).1 (Or.inr (Or.inl rfl)),
   (c4_resolver_none_conditions true noneHostData []).2.1 "None:5432" "None" "5432"
     rfl (by decide) (Or.inr rfl),
   (c4_resolver_none_conditions true noDbData []).2.2 "u" "p" "10.0.0.1:5432"
     "10.0.0.1" "5432" rfl rfl rfl rfl (by decide) (by decide) (by decide) rfl⟩

/-- Claim C5: on a well-formed snapshot (required fields present, endpoints
of the form `host:port` with a valid host) the resolver returns a
descriptor whose five connection fields equal the corresponding inputs and
whose `dbopts` is the fixed constant. -/
theorem c5_resolver_success_shape (d : RelationData) (rest : List RelationData)
    (u pw e host port : String)
    (hu : d.username = some u) (hp : d.password = some pw)
    (he : d.endpoints = some e) (hs : pySplit ':' e = [host, port])
    (h1 : host ≠ "") (h2 : host ≠ "None") :
    connectionString true (d :: rest) =
      .descriptor { dbname := d.database, dbuser := u, dbhost := host,
                    dbpass := pw, dbport := port, dbopts := dbopts_const } :=
  connectionString_success d rest u pw e host port hu hp he hs h1 h2

/-- Witness for C5 at the Scenario C snapshot. -/
theorem c5_witness :
    connectionString true [goodData] =
      .descriptor { dbname := some "db", dbuser := "u", dbhost := "10.0.0.1",
                    dbpass := "p", dbport := "5432", dbopts := dbopts_const } :=
  c5_resolver_success_shape goodData [] "u" "p" "10.0.0.1:5432" "10.0.0.1" "5432"
    rfl rfl rfl (by decide) (by decide) (by decide)

/-- Claim C6 counterexample: a present-but-empty username is not treated as
absent — the resolver returns a full descriptor (with an empty user), not
`None`, so empty string and absent field are distinguished. -/
theorem c6_counterexample :
    emptyUserData.username = some ""
    ∧ connectionString true [emptyUserData] =
        .descriptor ⟨none, "", "h", "p", "1", dbopts_const⟩
    ∧ connectionString true [emptyUserData] ≠ .resolvedNone := by decide

/-- Claim C6 (amended): empty-string required fields are distinguished from
absent ones. A present-but-empty username (or password) passes the
`None`-membership validation and yields a descriptor carrying the empty
string; a present-but-empty endpoints string raises `ValueError` from the
two-variable unpacking (its split is a single piece), rather than
returning `None`. -/
theorem c6_empty_string_not_absent (d : RelationData) (rest : List RelationData) :
    (∀ pw e host port, d.username = some "" → d.password = some pw →
      d.endpoints = some e → pySplit ':' e = [host, port] →
      host ≠ "" → host ≠ "None" →
      connectionString true (d :: rest) =
        .descriptor ⟨d.database, "", host, pw, port, dbopts_const⟩)
    ∧ (∀ u pw, d.username = some u → d.password = some pw →
        d.endpoints = some "" →
        connectionString true (d :: rest) = .raised .valueError) :=
  ⟨fun pw e host port hu hp he hs h1 h2 =>
     connectionString_success d rest "" pw e host port hu hp he hs h1 h2,
   fun u pw hu hp he =>
     connectionString_bad_split d rest u pw "" hu hp he (by decide)⟩

/-- Witness for the amended C6 at concrete entries with empty username and
empty endpoints. -/
theorem c6_witness :
    connectionString true [emptyUserData] =
      .descriptor ⟨none, "", "h", "p", "1", dbopts_const⟩
    ∧ connectionString true [emptyEndpointsData] = .raised .valueError :=
  ⟨(c6_empty_string_not_absent emptyUserData []).1 "p" "h:1" "h" "1"
     rfl rfl rfl (by decide) (by decide) (by decide),
   (c6_empty_string_not_absent emptyEndpointsData []).2 "u" "p" rfl rfl rfl⟩

/-- Claim C7: with the relation reported present but an empty snapshot, the
resolver raises (`StopIteration` from `next` over the exhausted generator)
instead of returning the normal `None` result. -/
theorem c7_empty_snapshot_raises :
    connectionString true [] = .raised .stopIteration
    ∧ connectionString true [] ≠ .resolvedNone := by decide

/-- Claim C9: the resolver is deterministic and state-free — its result is
a function of the relation presence flag and the consulted inputs only
(first-entry existence and that entry's four fields), so two evaluations
over the same snapshot agree in every field. -/
theorem c9_resolver_deterministic (p : Bool) (s₁ s₂ : List RelationData)
    (h : consulted s₁ = consulted s₂) :
    connectionString p s₁ = connectionString p s₂ := by
  cases s₁ with
  | nil =>
    cases s₂ with
    | nil => rfl
    | cons d rest => simp [consulted] at h
  | cons d₁ r₁ =>
    cases s₂ with
    | nil => simp [consulted] at h
    | cons d₂ r₂ =>
      simp only [consulted, Option.some.injEq, Prod.mk.injEq] at h
      obtain ⟨h1, h2, h3, h4⟩ := h
      simp only [connectionString, h1, h2, h3, h4]

/-- Witness for C9: two different snapshots with the same first entry give
identical results. -/
theorem c9_witness :
    consulted [goodData] = consulted [goodData, incompleteData]
    ∧ connectionString true [goodData] =
        connectionString true [goodData, incompleteData] :=
  ⟨rfl, c9_resolver_deterministic true [goodData] [goodData, incompleteData] rfl⟩

/-- Claim C10: when all required fields are present but the endpoints
string does not split into exactly two pieces at colons, the resolver
neither returns `None` nor a descriptor: the unpacking raises
`ValueError`. -/
theorem c10_bad_split_raises (d : RelationData) (rest : List RelationData)
    (u pw e : String)
    (hu : d.username = some u) (hp : d.password = some pw)
    (he : d.endpoints = some e) (hl : (pySplit ':' e).length ≠ 2) :
    connectionString true (d :: rest) = .raised .valueError :=
  connectionString_bad_split d rest u pw e hu hp he hl

/-- Witness for C10 at the two-colon endpoints string `"h:1:2"`. -/
theorem c10_witness :
    (pySplit ':' "h:1:2").length ≠ 2
    ∧ connectionString true [badEndpointsData] = .raised .valueError :=
  ⟨by decide,
   c10_bad_split_raises badEndpointsData [] "u" "p" "h:1:2" rfl rfl rfl (by decide)⟩

/-- True when an effect list contains a configuration-affecting action
(a `db_init` or a `render_and_reload` request). -/
def touchesWorkloadConfig (l : List Effect) : Bool :=
  l.any fun e =>
    match e with
    | .dbInit _ => true
    | .renderAndReload _ => true
    | _ => false

/-- A pass state where the workload is not installed. -/
def stNotInstalled : CharmState :=
  { storkVersion := none, running := false, storkStatus := "",
    relationPresent := false, snapshot := [] }

/-- A pass state where everything resolves but the service is not running. -/
def stNotRunning : CharmState :=
  { storkVersion := some "1.0.0", running := false,
    storkStatus := "This is the default normal status",
    relationPresent := true, snapshot := [goodData] }

/-- Claim C1 counterexample: on a state whose resolver result is `None`,
the database-created handler does not defer — it raises `TypeError` from
`db_init(None)` — and the endpoints-changed handler returns without
deferring; so two of the three configuration-affecting events do not
produce the claimed Defer decision. -/
theorem c1_counterexample :
    connectionString stIncomplete.relationPresent stIncomplete.snapshot = .resolvedNone
    ∧ onDatabaseCreated stIncomplete = ⟨[], some .typeError⟩
    ∧ Effect.deferEvent ∉ (onDatabaseCreated stIncomplete).effects
    ∧ onDatabaseEndpointsChanged stIncomplete = ⟨[], none⟩
    ∧ Effect.deferEvent ∉ (onDatabaseEndpointsChanged stIncomplete).effects := by
  decide

/-- Claim C1 (amended): when the resolver returns `None`, only the
config-changed handler defers (and then performs no `db_init` or
`render_and_reload`); the database-created handler performs no `None`
check and aborts with `TypeError` inside `db_init(None)` without deferring,
and the endpoints-changed handler returns without deferring and with no
effects. -/
theorem c1_none_descriptor_handling (st : CharmState)
    (hc : connectionString st.relationPresent st.snapshot = .resolvedNone) :
    (Effect.deferEvent ∈ (onConfigChanged st).effects
      ∧ (onConfigChanged st).raised = none
      ∧ touchesWorkloadConfig (onConfigChanged st).effects = false)
    ∧ onDatabaseCreated st = ⟨[], some .typeError⟩
    ∧ onDatabaseEndpointsChanged st = ⟨[], none⟩ := by
  refine ⟨?_, ?_, ?_⟩ <;>
    cases hv : st.storkVersion <;>
      simp [onConfigChanged, onDatabaseCreated, onDatabaseEndpointsChanged,
        touchesWorkloadConfig, hc, hv]

/-- Witness for the amended C1 at the incomplete-data state. -/
theorem c1_witness :
    (Effect.deferEvent ∈ (onConfigChanged stIncomplete).effects
      ∧ (onConfigChanged stIncomplete).raised = none
      ∧ touchesWorkloadConfig (onConfigChanged stIncomplete).effects = false)
    ∧ onDatabaseCreated stIncomplete = ⟨[], some .typeError⟩
    ∧ onDatabaseEndpointsChanged stIncomplete = ⟨[], none⟩ :=
  c1_none_descriptor_handling stIncomplete (by decide)

/-- Claim C2: the status collection is a strict priority chain. If the
version is unobtainable the only status added (hence the published one) is
the not-installed Blocked status, nothing else being evaluated; otherwise,
if the resolver returns `None`, the only status is Blocked
"database relation missing" when no relation exists and Blocked
"database relation incomplete, check the logs" when one exists, the
running check never being reached. -/
theorem c2_status_priority_chain (st : CharmState) :
    (st.storkVersion = none →
      collectUnitStatus st = .statuses [.blocked "isc-stork-server is not installed"]
      ∧ publishedStatus (collectUnitStatus st) =
          some (.blocked "isc-stork-server is not installed"))
    ∧ (st.storkVersion ≠ none →
        connectionString st.relationPresent st.snapshot = .resolvedNone →
        collectUnitStatus st = .statuses
          [.blocked (if st.relationPresent then "database relation incomplete, check the logs"
                     else "database relation missing")]
        ∧ publishedStatus (collectUnitStatus st) =
            some (.blocked (if st.relationPresent
                            then "database relation incomplete, check the logs"
                            else "database relation missing"))) := by
  constructor
  · intro h
    simp [collectUnitStatus, h, publishedStatus, List.find?, UnitStatus.isBlocked]
  · intro hv hc
    cases hver : st.storkVersion with
    | none => exact absurd hver hv
    | some v =>
      cases hr : st.relationPresent <;> rw [hr] at hc <;>
        simp [collectUnitStatus, hver, hc, hr, publishedStatus, List.find?,
          UnitStatus.isBlocked]

/-- Witness for C2 at a not-installed state and at an incomplete-relation
state. -/
theorem c2_witness :
    collectUnitStatus stNotInstalled =
      .statuses [.blocked "isc-stork-server is not installed"]
    ∧ collectUnitStatus stIncomplete =
        .statuses [.blocked "database relation incomplete, check the logs"] :=
  ⟨((c2_status_priority_chain stNotInstalled).1 rfl).1,
   by
     have h := ((c2_status_priority_chain stIncomplete).2 (by decide) (by decide)).1
     simpa using h⟩

/-- Claim C3 counterexample: with the workload installed, the descriptor
resolving, and running false, the published status is Blocked
"isc-stork-server is not running", not the claimed Blocked
"workload not running". -/
theorem c3_counterexample :
    publishedStatus (collectUnitStatus stNotRunning) =
      some (.blocked "isc-stork-server is not running")
    ∧ publishedStatus (collectUnitStatus stNotRunning) ≠
        some (.blocked "workload not running") := by decide

/-- Claim C3 (amended): whenever the workload is installed, the resolver
returns a descriptor, and running is false, the handler adds the Blocked
not-running status followed by the Active detail, and the published status
is Blocked "isc-stork-server is not running" — running=false forces
Blocked, and Active is not published that pass. -/
theorem c3_not_running_blocks (st : CharmState) (v : String)
    (d : ConnectionDescriptor)
    (hv : st.storkVersion = some v)
    (hc : connectionString st.relationPresent st.snapshot = .descriptor d)
    (hr : st.running = false) :
    collectUnitStatus st =
      .statuses [.blocked "isc-stork-server is not running", .active st.storkStatus]
    ∧ publishedStatus (collectUnitStatus st) =
        some (.blocked "isc-stork-server is not running") := by
  simp [collectUnitStatus, hv, hc, hr, publishedStatus, List.find?,
    UnitStatus.isBlocked]

/-- Witness for the amended C3 at the not-running state. -/
theorem c3_witness :
    collectUnitStatus stNotRunning =
      .statuses [.blocked "isc-stork-server is not running",
                 .active "This is the default normal status"]
    ∧ publishedStatus (collectUnitStatus stNotRunning) =
        some (.blocked "isc-stork-server is not running") :=
  c3_not_running_blocks stNotRunning "1.0.0"
    ⟨some "db", "u", "10.0.0.1", "p", "5432", dbopts_const⟩ rfl (by decide) rfl

/-- Claim C8: the relation-broken handler is a no-op for every state — it
issues no effects (no stop/disable, no render, no status) and raises
nothing. -/
theorem c8_relation_broken_noop (st : CharmState) :
    onRelationBroken st = ⟨[], none⟩
    ∧ (onRelationBroken st).effects = []
    ∧ (onRelationBroken st).raised = none :=
  ⟨rfl, rfl, rfl⟩
